import Mathlib

/-!
# Verification of the react-lazyload visibility coordinator (src/index.js)

Shallow embedding of the lazy-loading coordinator: the geometric visibility
tests (`checkOverflowVisible`, `checkNormalVisible`), the per-component check
(`checkVisible`), the shared registry (`listeners` / `pending` with
`purgePending` and `lazyLoadHandler`), the rate-limiter selection made on the
first mount, and the mount / unmount lifecycle of the `LazyLoad` component.

DOM state (node geometry, resolved scroll parents, window metrics) is supplied
by an explicit environment (`Env`); the module-level mutable state of the
source file is threaded as an explicit `GlobalState`.
-/

namespace ReactLazyload

/-- A JavaScript prop value that may be a number or a boolean
(the `throttle` / `debounce` props admit both; `Option` models `undefined`). -/
inductive NumBool where
  | num (n : Int)
  | bool (b : Bool)
deriving DecidableEq, Repr

/-- The `offset` prop: a single number or a `[leading, trailing]` array. -/
inductive OffsetProp where
  | single (n : Int)
  | pair (a b : Int)
deriving DecidableEq, Repr

/-- The props recognised by `LazyLoad` (src/index.js `propTypes`). -/
structure Props where
  once : Bool
  offset : OffsetProp
  overflow : Bool
  scroll : Bool
  resize : Bool
  throttleProp : Option NumBool
  debounceProp : Option NumBool
deriving DecidableEq, Repr

/-- One mounted `LazyLoad` component instance. The `id` tag stands for JS
object identity, so two distinct instances are distinct values. -/
structure Component where
  id : Nat
  props : Props
deriving DecidableEq, Repr

/-- The shared rate limiter `finalLazyLoadHandler`: either a debounce wrapper
or a throttle wrapper around `lazyLoadHandler`, with its interval in ms. -/
inductive RateLimiter where
  | debounceWrap (intervalMs : Int)
  | throttleWrap (intervalMs : Int)
deriving DecidableEq, Repr

/-- The expression `typeof x === 'number' ? x : 300` applied to a possibly-undefined prop. -/
def numOr300 : Option NumBool → Int
  | some (NumBool.num n) => n
  | _ => 300

/-- The rate-limiter construction from `componentDidMount`
(src/index.js lines 142-152), exactly as written there:

    if (this.props.debounce !== undefined) {
      finalLazyLoadHandler = debounce(lazyLoadHandler,
        typeof this.props.throttle === 'number' ? this.props.throttle : 300);
    } else {
      finalLazyLoadHandler = throttle(lazyLoadHandler,
        typeof this.props.debounce === 'number' ? this.props.debounce : 300);
    }

Note that the branch taken is decided by the `debounce` prop while the
interval inside each branch is read from the *other* prop. -/
def mkFinalLazyLoadHandler (debounceProp throttleProp : Option NumBool) : RateLimiter :=
  if debounceProp ≠ none then
    RateLimiter.debounceWrap (numOr300 throttleProp)
  else
    RateLimiter.throttleWrap (numOr300 debounceProp)

/-- The DOM measurements of one component's node, as read by the source:
`scrollParent` is the result of resolving the nearest scrollable ancestor
(`none` means the document itself), `rectTop` / `rectHeight` come from
`getBoundingClientRect()`, and `offsetTop` is `node.offsetTop`. -/
structure NodeInfo where
  scrollParent : Option Nat
  rectTop : Int
  rectHeight : Int
  offsetTop : Int
deriving DecidableEq, Repr

/-- The DOM environment during one event-loop turn: per-component node state
(`none` = `ReactDom.findDOMNode` returned no node), the window scroll offset
(the `pageYOffset` / `scrollTop` fallback chain collapses to one value), the
window inner height, and each overflow container's `scrollTop` /
`offsetHeight`, keyed by container id. -/
structure Env where
  node : Component → Option NodeInfo
  windowScrollTop : Int
  windowInnerHeight : Int
  containerScrollTop : Nat → Int
  containerOffsetHeight : Nat → Int

/-- Offset normalization `Array.isArray(offset) ? offset : [offset, offset]`. -/
def normOffsets : OffsetProp → Int × Int
  | OffsetProp.single n => (n, n)
  | OffsetProp.pair a b => (a, b)

/-- Function `checkOverflowVisible(component, parent)` (src/index.js lines 22-38):
visibility of the node inside overflow container `p`. -/
def checkOverflowVisible (e : Env) (c : Component) (ni : NodeInfo) (p : Nat) : Bool :=
  let scrollTop := e.containerScrollTop p
  let parentBottom := scrollTop + e.containerOffsetHeight p
  let elementHeight := ni.rectHeight
  let offs := normOffsets c.props.offset
  let elementTop := ni.offsetTop
  let elementBottom := elementTop + elementHeight
  decide (elementTop ≥ scrollTop - offs.1 ∧ elementBottom - offs.2 ≤ parentBottom)

/-- Function `checkNormalVisible(component)` (src/index.js lines 45-69):
visibility of the node against the document viewport. -/
def checkNormalVisible (e : Env) (c : Component) (ni : NodeInfo) : Bool :=
  let scrollTop := e.windowScrollTop
  let elementTop := ni.rectTop + scrollTop
  let elementBottom := elementTop + ni.rectHeight
  let documentBottom := scrollTop + e.windowInnerHeight
  let offs := normOffsets c.props.offset
  decide (elementTop ≥ scrollTop - offs.1 ∧ elementBottom - offs.2 ≤ documentBottom)

/-- The visibility decision inside `checkVisible` (src/index.js lines 79-89):
`none` when the node is absent (early return); otherwise the algorithm is
chosen by whether `scrollParent(node)` is the document, and the chosen
geometric test is evaluated. -/
def computeVisible (e : Env) (c : Component) : Option Bool :=
  match e.node c with
  | none => none
  | some ni =>
      some (match ni.scrollParent with
            | some p => checkOverflowVisible e c ni p
            | none => checkNormalVisible e c ni)

/-- The call `scrollParent(ReactDom.findDOMNode(this))` as used by mount / unmount:
the resolved container id, `none` meaning the document viewport (also the
safe default for a detached node, per the resolver's contract). -/
def scrollParentOf (e : Env) (c : Component) : Option Nat :=
  match e.node c with
  | none => none
  | some ni => ni.scrollParent

/-- The module-level mutable state of src/index.js: the `listeners` array,
the `pending` array, every component's `visible` instance field (keyed by
component), a log of `forceUpdate` calls made during the current turn,
`finalLazyLoadHandler`, whether window `scroll` / `resize` listeners are
attached, and the set of containers carrying the `data-lazyload-listened`
flag together with their scroll listener. -/
structure GlobalState where
  listeners : List Component
  pending : List Component
  visible : Component → Bool
  forced : List Component
  finalHandler : Option RateLimiter
  windowScrollBound : Bool
  windowResizeBound : Bool
  containerBound : List Nat

/-- The state before any component has mounted. -/
def initialState : GlobalState :=
  { listeners := []
    pending := []
    visible := fun _ => false
    forced := []
    finalHandler := none
    windowScrollBound := false
    windowResizeBound := false
    containerBound := [] }

/-- The state mutation of `checkVisible` once the visibility boolean is
known (src/index.js lines 91-104): on a hidden-to-visible transition push to
`pending` when `once`, set `visible`, call `forceUpdate`; when already
visible do nothing; when not visible just clear the flag. -/
def applyCheckResult (c : Component) (v : Bool) (s : GlobalState) : GlobalState :=
  match v with
  | true =>
    if s.visible c then s
    else
      { s with
        pending := if c.props.once then s.pending ++ [c] else s.pending
        visible := fun d => if d = c then true else s.visible d
        forced := s.forced ++ [c] }
  | false => { s with visible := fun d => if d = c then false else s.visible d }

/-- Function `checkVisible(component)` (src/index.js lines 78-105). -/
def checkVisible (e : Env) (c : Component) (s : GlobalState) : GlobalState :=
  match computeVisible e c with
  | none => s
  | some v => applyCheckResult c v s

/-- The iteration of `lazyLoadHandler` over a snapshot of `listeners`
(the loop body never mutates `listeners`, so folding over the entry list is
exact). -/
def runChecks (e : Env) (l : List Component) (s : GlobalState) : GlobalState :=
  l.foldl (fun st x => checkVisible e x st) s

/-- Function `purgePending()` (src/index.js lines 108-117): for each pending
component, `indexOf` + `splice` removes its first occurrence from
`listeners` (tolerating absence); then `pending` is reset to `[]`. -/
def purgePending (s : GlobalState) : GlobalState :=
  { s with
    listeners := s.pending.foldl (fun l comp => l.erase comp) s.listeners
    pending := [] }

/-- Function `lazyLoadHandler()` (src/index.js lines 120-128): check every listener,
then purge the `once` components that just became visible. -/
def lazyLoadHandler (e : Env) (s : GlobalState) : GlobalState :=
  purgePending (runChecks e s.listeners s)

/-- A sequence of coordinator ticks, each under its own DOM environment. -/
def runPasses (es : List Env) (s : GlobalState) : GlobalState :=
  es.foldl (fun st e => lazyLoadHandler e st) s

/-- The `LazyLoad` constructor (`this.visible = false`) followed by the lazy
creation of `finalLazyLoadHandler` at the top of `componentDidMount`
(src/index.js lines 141-152). -/
def mountInit (c : Component) (s : GlobalState) : GlobalState :=
  let s0 := { s with visible := fun d => if d = c then false else s.visible d }
  if s0.finalHandler = none then
    { s0 with
        finalHandler := some (mkFinalLazyLoadHandler c.props.debounceProp c.props.throttleProp) }
  else s0

/-- The event-binding part of `componentDidMount` (src/index.js lines
154-170): an overflow component binds its container's scroll listener unless
the listen flag is already set; otherwise, when `listeners` is empty, the
window `scroll` / `resize` listeners are attached as the props request. -/
def mountBind (e : Env) (c : Component) (s : GlobalState) : GlobalState :=
  if c.props.overflow then
    match scrollParentOf e c with
    | some p =>
        if p ∈ s.containerBound then s
        else { s with containerBound := s.containerBound ++ [p] }
    | none => s
  else if s.listeners.length = 0 then
    let sa := if c.props.scroll then { s with windowScrollBound := true } else s
    if c.props.resize then { sa with windowResizeBound := true } else sa
  else s

/-- Lifecycle hook `componentDidMount` (src/index.js lines 141-174): handler creation,
event binding, push onto `listeners`, and one immediate `checkVisible`. -/
def componentDidMount (e : Env) (c : Component) (s : GlobalState) : GlobalState :=
  let s2 := mountBind e c (mountInit c s)
  checkVisible e c { s2 with listeners := s2.listeners ++ [c] }

/-- The removal part of `componentWillUnmount` (src/index.js lines 180-192):
for an overflow component, remove the resolved container's scroll listener
and listen flag (unconditionally); then remove this component from
`listeners` (first occurrence, tolerating absence). -/
def unmountRemove (e : Env) (c : Component) (s : GlobalState) : GlobalState :=
  let s1 :=
    if c.props.overflow then
      match scrollParentOf e c with
      | some p => { s with containerBound := s.containerBound.erase p }
      | none => s
    else s
  { s1 with listeners := s1.listeners.erase c }

/-- Lifecycle hook `componentWillUnmount` (src/index.js lines 180-198): the removal part,
then, if `listeners` is now empty, detach the window `resize` and `scroll`
listeners. -/
def componentWillUnmount (e : Env) (c : Component) (s : GlobalState) : GlobalState :=
  let s2 := unmountRemove e c s
  if s2.listeners.length = 0 then
    { s2 with windowScrollBound := false, windowResizeBound := false }
  else s2

/-! ## Concrete fixtures used by the claim theorems and witnesses -/

/-- Default document-mode props (matching `defaultProps` of the source). -/
def docProps : Props :=
  { once := false
    offset := OffsetProp.single 0
    overflow := false
    scroll := true
    resize := false
    throttleProp := none
    debounceProp := none }

/-- A document-mode component with default props. -/
def cDoc : Component := { id := 0, props := docProps }

/-- A node attached to the document at the given bounding-rect position. -/
def niAt (rectTop rectHeight : Int) : NodeInfo :=
  { scrollParent := none, rectTop := rectTop, rectHeight := rectHeight, offsetTop := 0 }

/-- A document-mode environment where every node has the given geometry. -/
def mkDocEnv (scrollTop innerHeight rectTop rectHeight : Int) : Env :=
  { node := fun _ => some (niAt rectTop rectHeight)
    windowScrollTop := scrollTop
    windowInnerHeight := innerHeight
    containerScrollTop := fun _ => 0
    containerOffsetHeight := fun _ => 0 }

/-- A component whose first mount requests debouncing at 100ms. -/
def cDeb : Component :=
  { id := 1, props := { docProps with debounceProp := some (NumBool.num 100) } }

/-- A component whose first mount requests throttling at 250ms. -/
def cThr : Component :=
  { id := 2, props := { docProps with throttleProp := some (NumBool.num 250) } }

/-- A component like `cDoc` but with leading offset 5 and trailing offset 7. -/
def cOff57 : Component :=
  { id := 3, props := { docProps with offset := OffsetProp.pair 5 7 } }

/-- A `once = true` document-mode component. -/
def cOnce : Component := { id := 4, props := { docProps with once := true } }

/-- The registry holding only `cOnce`, still hidden. -/
def sOnceMounted : GlobalState := { initialState with listeners := [cOnce] }

/-- Overflow-mode props. -/
def ovProps : Props := { docProps with overflow := true }

/-- Two overflow components sharing one scroll container. -/
def cOvA : Component := { id := 5, props := ovProps }

/-- Second overflow component sharing the same container as `cOvA`. -/
def cOvB : Component := { id := 6, props := ovProps }

/-- An environment in which every node lives in overflow container 7
(container scrollTop 50, height 300; node offsetTop 40, height 20). -/
def envOv : Env :=
  { node := fun _ =>
      some { scrollParent := some 7, rectTop := 0, rectHeight := 20, offsetTop := 40 }
    windowScrollTop := 0
    windowInnerHeight := 0
    containerScrollTop := fun _ => 50
    containerOffsetHeight := fun _ => 300 }

/-- Registry after mounting only the overflow component `cOvA`. -/
def sOvOnly : GlobalState := componentDidMount envOv cOvA initialState

/-- Registry after mounting `cOvA` then `cOvB`, which share container 7. -/
def sC5 : GlobalState := componentDidMount envOv cOvB sOvOnly

/-- Registry after mounting the hidden `once` component `cOnce` from scratch
(window scroll listener attached, element not yet visible). -/
def sC4 : GlobalState := componentDidMount (mkDocEnv 0 400 500 50) cOnce initialState

/-- A node with a real scroll parent (container 7), geometry chosen so the
overflow test and the document test disagree. -/
def niC6 : NodeInfo :=
  { scrollParent := some 7, rectTop := 1000, rectHeight := 20, offsetTop := 10 }

/-- Environment for `niC6`: container 7 has scrollTop 0 and height 100, the
window viewport is 50 tall at scrollTop 0. -/
def envC6 : Env :=
  { node := fun _ => some niC6
    windowScrollTop := 0
    windowInnerHeight := 50
    containerScrollTop := fun _ => 0
    containerOffsetHeight := fun _ => 100 }

/-! ## Frame and invariant lemmas about one check step -/

/-- Equation: the not-visible branch of `applyCheckResult`. -/
theorem applyCheckResult_false (c : Component) (s : GlobalState) :
    applyCheckResult c false s =
      { s with visible := fun d => if d = c then false else s.visible d } := rfl

/-- Equation: the already-visible branch of `applyCheckResult`. -/
theorem applyCheckResult_true_seen (c : Component) (s : GlobalState)
    (h : s.visible c = true) : applyCheckResult c true s = s := by
  unfold applyCheckResult
  simp [h]

/-- Equation: the hidden-to-visible branch of `applyCheckResult`. -/
theorem applyCheckResult_true_new (c : Component) (s : GlobalState)
    (h : s.visible c = false) :
    applyCheckResult c true s =
      { s with
        pending := if c.props.once then s.pending ++ [c] else s.pending
        visible := fun d => if d = c then true else s.visible d
        forced := s.forced ++ [c] } := by
  unfold applyCheckResult
  simp [h]

/-- Step `applyCheckResult` only touches `pending`, `visible` and `forced`. -/
theorem applyCheckResult_frame (c : Component) (v : Bool) (s : GlobalState) :
    (applyCheckResult c v s).listeners = s.listeners ∧
    (applyCheckResult c v s).finalHandler = s.finalHandler ∧
    (applyCheckResult c v s).windowScrollBound = s.windowScrollBound ∧
    (applyCheckResult c v s).windowResizeBound = s.windowResizeBound ∧
    (applyCheckResult c v s).containerBound = s.containerBound := by
  cases v with
  | false =>
      rw [applyCheckResult_false]
      exact ⟨rfl, rfl, rfl, rfl, rfl⟩
  | true =>
      cases hv : s.visible c with
      | true =>
          rw [applyCheckResult_true_seen c s hv]
          exact ⟨rfl, rfl, rfl, rfl, rfl⟩
      | false =>
          rw [applyCheckResult_true_new c s hv]
          exact ⟨rfl, rfl, rfl, rfl, rfl⟩

/-- Equation: `computeVisible` on an attached node dispatches on the
resolved scroll parent. -/
theorem computeVisible_eq (e : Env) (c : Component) (ni : NodeInfo)
    (h : e.node c = some ni) :
    computeVisible e c =
      some (match ni.scrollParent with
            | some p => checkOverflowVisible e c ni p
            | none => checkNormalVisible e c ni) := by
  unfold computeVisible
  rw [h]

/-- Equation: `checkVisible` on a resolvable node applies the check result. -/
theorem checkVisible_eq (e : Env) (c : Component) (s : GlobalState) (v : Bool)
    (h : computeVisible e c = some v) :
    checkVisible e c s = applyCheckResult c v s := by
  unfold checkVisible
  rw [h]

/-- Equation: `checkVisible` on a detached node is the identity. -/
theorem checkVisible_eq_none (e : Env) (c : Component) (s : GlobalState)
    (h : computeVisible e c = none) : checkVisible e c s = s := by
  unfold checkVisible
  rw [h]

/-- Step `checkVisible` only touches `pending`, `visible` and `forced`. -/
theorem checkVisible_frame (e : Env) (c : Component) (s : GlobalState) :
    (checkVisible e c s).listeners = s.listeners ∧
    (checkVisible e c s).finalHandler = s.finalHandler ∧
    (checkVisible e c s).windowScrollBound = s.windowScrollBound ∧
    (checkVisible e c s).windowResizeBound = s.windowResizeBound ∧
    (checkVisible e c s).containerBound = s.containerBound := by
  unfold checkVisible
  rcases hv : computeVisible e c with _ | v
  · exact ⟨rfl, rfl, rfl, rfl, rfl⟩
  · exact applyCheckResult_frame c v s

/-- A check step never drops entries from `pending`. -/
theorem applyCheckResult_pending_mono (c x : Component) (v : Bool) (s : GlobalState)
    (h : x ∈ s.pending) : x ∈ (applyCheckResult c v s).pending := by
  cases v with
  | false =>
      rw [applyCheckResult_false]
      exact h
  | true =>
      cases hv : s.visible c with
      | true =>
          rw [applyCheckResult_true_seen c s hv]
          exact h
      | false =>
          rw [applyCheckResult_true_new c s hv]
          by_cases ho : c.props.once <;> simp [ho, h]

/-- Checking component `x` leaves every other component's `visible` flag alone. -/
theorem applyCheckResult_visible_ne (x c : Component) (v : Bool) (s : GlobalState)
    (h : c ≠ x) : (applyCheckResult x v s).visible c = s.visible c := by
  cases v with
  | false =>
      rw [applyCheckResult_false]
      simp [h]
  | true =>
      cases hv : s.visible x with
      | true => rw [applyCheckResult_true_seen x s hv]
      | false =>
          rw [applyCheckResult_true_new x s hv]
          simp [h]

/-- Checking component `x` leaves every other component's `visible` flag alone. -/
theorem checkVisible_visible_ne (e : Env) (x c : Component) (s : GlobalState)
    (h : c ≠ x) : (checkVisible e x s).visible c = s.visible c := by
  unfold checkVisible
  rcases hv : computeVisible e x with _ | v
  · rfl
  · exact applyCheckResult_visible_ne x c v s h

/-- Key invariant of one check step, for a `once` component `c`: if `c`'s
`visible` flag is set afterwards, then either it was already set and `c` was
already pending, or this very step set it and pushed `c` onto `pending`. -/
theorem applyCheckResult_pendingInv (x c : Component) (v : Bool) (s : GlobalState)
    (honce : c.props.once = true)
    (hinv : s.visible c = true → c ∈ s.pending) :
    (applyCheckResult x v s).visible c = true → c ∈ (applyCheckResult x v s).pending := by
  cases v with
  | false =>
      rw [applyCheckResult_false]
      intro hc
      by_cases hcx : c = x
      · subst hcx
        simp at hc
      · exact hinv (by simpa [hcx] using hc)
  | true =>
      cases hvx : s.visible x with
      | true =>
          rw [applyCheckResult_true_seen x s hvx]
          exact hinv
      | false =>
          rw [applyCheckResult_true_new x s hvx]
          intro hc
          by_cases hcx : c = x
          · subst hcx
            simp [honce]
          · have hsc : s.visible c = true := by simpa [hcx] using hc
            have hp := hinv hsc
            by_cases ho : x.props.once <;> simp [ho, hp]

/-- The pending invariant lifted through `checkVisible`. -/
theorem checkVisible_pendingInv (e : Env) (x c : Component) (s : GlobalState)
    (honce : c.props.once = true)
    (hinv : s.visible c = true → c ∈ s.pending) :
    (checkVisible e x s).visible c = true → c ∈ (checkVisible e x s).pending := by
  unfold checkVisible
  rcases hv : computeVisible e x with _ | v
  · exact hinv
  · exact applyCheckResult_pendingInv x c v s honce hinv

/-! ## Lemmas about the whole check loop -/

/-- The check loop only touches `pending`, `visible` and `forced`. -/
theorem runChecks_frame (e : Env) (l : List Component) (s : GlobalState) :
    (runChecks e l s).listeners = s.listeners ∧
    (runChecks e l s).finalHandler = s.finalHandler ∧
    (runChecks e l s).windowScrollBound = s.windowScrollBound ∧
    (runChecks e l s).windowResizeBound = s.windowResizeBound ∧
    (runChecks e l s).containerBound = s.containerBound := by
  induction l generalizing s with
  | nil => exact ⟨rfl, rfl, rfl, rfl, rfl⟩
  | cons x xs ih =>
      have h1 := checkVisible_frame e x s
      have h2 := ih (checkVisible e x s)
      exact ⟨h2.1.trans h1.1, h2.2.1.trans h1.2.1, h2.2.2.1.trans h1.2.2.1,
             h2.2.2.2.1.trans h1.2.2.2.1, h2.2.2.2.2.trans h1.2.2.2.2⟩

/-- The check loop does not change the flag of a component it never visits. -/
theorem runChecks_visible_not_mem (e : Env) (l : List Component) (c : Component)
    (s : GlobalState) (h : c ∉ l) :
    (runChecks e l s).visible c = s.visible c := by
  induction l generalizing s with
  | nil => rfl
  | cons x xs ih =>
      have hx : c ≠ x := by
        rintro rfl
        exact h (List.mem_cons_self _ _)
      have hxs : c ∉ xs := fun hm => h (List.mem_cons_of_mem _ hm)
      exact (ih (checkVisible e x s) hxs).trans (checkVisible_visible_ne e x c s hx)

/-- The pending invariant holds across the whole check loop. -/
theorem runChecks_pendingInv (e : Env) (l : List Component) (c : Component)
    (s : GlobalState) (honce : c.props.once = true)
    (hinv : s.visible c = true → c ∈ s.pending) :
    (runChecks e l s).visible c = true → c ∈ (runChecks e l s).pending := by
  induction l generalizing s with
  | nil => exact hinv
  | cons x xs ih => exact ih (checkVisible e x s) (checkVisible_pendingInv e x c s honce hinv)

/-! ## Lemmas about the purge -/

/-- Repeatedly erasing elements yields a sublist of the base list. -/
theorem foldl_erase_sublist (pend base : List Component) :
    (pend.foldl (fun l comp => l.erase comp) base).Sublist base := by
  induction pend generalizing base with
  | nil => exact List.Sublist.refl _
  | cons x xs ih => exact (ih (base.erase x)).trans (List.erase_sublist x base)

/-- If `c` is scheduled for erasure and occurs at most once in the base list,
it is gone after the erasure fold. -/
theorem foldl_erase_not_mem (pend : List Component) :
    ∀ (base : List Component) (c : Component), c ∈ pend → base.count c ≤ 1 →
      c ∉ pend.foldl (fun l comp => l.erase comp) base := by
  induction pend with
  | nil =>
      intro _ _ hmem _
      cases hmem
  | cons x xs ih =>
      intro base c hmem hcount
      rcases List.mem_cons.mp hmem with hx | hxs
      · subst hx
        have h0 : c ∉ base.erase c := by
          have hce := List.count_erase_self c base
          have hz : (base.erase c).count c = 0 := by omega
          exact List.count_eq_zero.mp hz
        intro hc
        exact h0 ((foldl_erase_sublist xs (base.erase c)).subset hc)
      · by_cases hcx : c = x
        · subst hcx
          have h0 : c ∉ base.erase c := by
            have hce := List.count_erase_self c base
            have hz : (base.erase c).count c = 0 := by omega
            exact List.count_eq_zero.mp hz
          intro hc
          exact h0 ((foldl_erase_sublist xs (base.erase c)).subset hc)
        · have hcount2 : (base.erase x).count c ≤ 1 := by
            rw [List.count_erase_of_ne hcx base]
            exact hcount
          exact ih (base.erase x) c hxs hcount2

/-- The purge keeps every field except `listeners` and `pending`. -/
theorem purgePending_visible (s : GlobalState) :
    (purgePending s).visible = s.visible := rfl

/-- The purge removes a pending component that occurs at most once. -/
theorem purgePending_removes (s : GlobalState) (c : Component)
    (hmem : c ∈ s.pending) (hcount : s.listeners.count c ≤ 1) :
    c ∉ (purgePending s).listeners :=
  foldl_erase_not_mem s.pending s.listeners c hmem hcount

/-- The purged listener list is a sublist of the original. -/
theorem purgePending_sublist (s : GlobalState) :
    (purgePending s).listeners.Sublist s.listeners :=
  foldl_erase_sublist s.pending s.listeners

/-! ## Lemmas about whole passes -/

/-- A pass never re-adds a component that is not registered, and never
touches such a component's `visible` flag. -/
theorem lazyLoadHandler_not_mem (e : Env) (s : GlobalState) (c : Component)
    (h : c ∉ s.listeners) :
    c ∉ (lazyLoadHandler e s).listeners ∧ (lazyLoadHandler e s).visible c = s.visible c := by
  constructor
  · intro hc
    have hmem : c ∈ (runChecks e s.listeners s).listeners :=
      (purgePending_sublist (runChecks e s.listeners s)).subset hc
    rw [(runChecks_frame e s.listeners s).1] at hmem
    exact h hmem
  · show (purgePending (runChecks e s.listeners s)).visible c = s.visible c
    rw [purgePending_visible, runChecks_visible_not_mem e s.listeners c s h]

/-- Iterated passes never resurrect an unregistered component. -/
theorem runPasses_not_mem (es : List Env) (s : GlobalState) (c : Component)
    (h : c ∉ s.listeners) :
    c ∉ (runPasses es s).listeners ∧ (runPasses es s).visible c = s.visible c := by
  induction es generalizing s with
  | nil => exact ⟨h, rfl⟩
  | cons e es ih =>
      have h1 := lazyLoadHandler_not_mem e s c h
      have h2 := ih (lazyLoadHandler e s) h1.1
      exact ⟨h2.1, h2.2.trans h1.2⟩

/-! ## Lemmas about mount and unmount -/

/-- Stage `mountInit` only touches `visible` and `finalHandler`. -/
theorem mountInit_frame (c : Component) (s : GlobalState) :
    (mountInit c s).listeners = s.listeners ∧
    (mountInit c s).pending = s.pending ∧
    (mountInit c s).windowScrollBound = s.windowScrollBound ∧
    (mountInit c s).windowResizeBound = s.windowResizeBound ∧
    (mountInit c s).containerBound = s.containerBound := by
  simp only [mountInit]
  split_ifs <;> exact ⟨rfl, rfl, rfl, rfl, rfl⟩

/-- Mounting a non-overflow component into a non-empty registry binds no
event listener at all. -/
theorem mountBind_nonempty (e : Env) (c : Component) (s : GlobalState)
    (hov : c.props.overflow = false) (hne : s.listeners ≠ []) :
    mountBind e c s = s := by
  have hlen : ¬ s.listeners.length = 0 := fun h0 => hne (List.length_eq_zero.mp h0)
  simp [mountBind, hov, hlen]

/-- When unmounting leaves the registry empty, the window `scroll` and
`resize` listeners are detached. -/
theorem componentWillUnmount_unbinds_when_empty (e : Env) (c : Component)
    (s : GlobalState)
    (hc : (componentWillUnmount e c s).listeners = []) :
    (componentWillUnmount e c s).windowScrollBound = false ∧
    (componentWillUnmount e c s).windowResizeBound = false := by
  simp only [componentWillUnmount] at hc ⊢
  by_cases hlen : (unmountRemove e c s).listeners.length = 0
  · rw [if_pos hlen]
    exact ⟨rfl, rfl⟩
  · rw [if_neg hlen] at hc
    exact absurd (by simp [hc]) hlen

/-! ## Claim theorems -/

/-- Claim C9 (confirmed): after every complete run of the check pass
(iterate all registered elements, then purge), the pending-removal sequence
is empty, regardless of how many elements transitioned to visible or carried
the `once` flag during the pass. -/
theorem C9_pending_empty_after_pass (e : Env) (s : GlobalState) :
    (lazyLoadHandler e s).pending = [] := rfl

/-- Claim C2 (confirmed): for every element checked in document mode the
visibility test returns true iff `elementTop ≥ scrollTop - offsetLeading`
and `elementBottom - offsetTrailing ≤ scrollTop + viewportHeight`, where
`elementTop = boundingRect.top + scrollTop` and
`elementBottom = elementTop + height`; in particular an element at document
top 500 with height 50, symmetric offset 0 and viewport height 400 is not
visible at scrollTop 0 and visible at scrollTop 200. -/
theorem C2_document_visibility :
    (∀ (e : Env) (c : Component) (ni : NodeInfo),
      checkNormalVisible e c ni = true ↔
        (ni.rectTop + e.windowScrollTop ≥
            e.windowScrollTop - (normOffsets c.props.offset).1 ∧
         ni.rectTop + e.windowScrollTop + ni.rectHeight -
            (normOffsets c.props.offset).2 ≤
            e.windowScrollTop + e.windowInnerHeight)) ∧
    checkNormalVisible (mkDocEnv 0 400 500 50) cDoc (niAt 500 50) = false ∧
    checkNormalVisible (mkDocEnv 200 400 300 50) cDoc (niAt 300 50) = true := by
  refine ⟨fun e c ni => ?_, by decide, by decide⟩
  simp [checkNormalVisible, decide_eq_true_eq]

/-- Claim C1 (code bug): the first mounted element's debounce preference is
supposed to yield a Debounce wrapper at that element's numeric `debounce`
value (300 otherwise), and in its absence a Throttle wrapper at the numeric
`throttle` value (300 otherwise); the source instead reads each interval
from the other prop (`debounce(lazyLoadHandler, typeof this.props.throttle
=== 'number' ? ...)` and vice versa), so `debounce = 100` yields
`Debounce(300)` and `throttle = 250` alone yields `Throttle(300)`. -/
theorem C1_rate_limiter_interval_swapped :
    mkFinalLazyLoadHandler (some (NumBool.num 100)) none =
      RateLimiter.debounceWrap 300 ∧
    mkFinalLazyLoadHandler none (some (NumBool.num 250)) =
      RateLimiter.throttleWrap 300 ∧
    (componentDidMount (mkDocEnv 0 400 500 50) cDeb initialState).finalHandler =
      some (RateLimiter.debounceWrap 300) ∧
    (componentDidMount (mkDocEnv 0 400 500 50) cThr initialState).finalHandler =
      some (RateLimiter.throttleWrap 300) := by
  decide

/-- Claim C7 (confirmed): a redraw (`forceUpdate`) is signaled exactly when
the computed visibility is true and the stored flag was false; a
visible-to-hidden result only clears the stored flag with no redraw signal;
visible-to-visible and hidden-to-hidden results signal nothing (the latter
leaves the whole state unchanged up to re-clearing the flag). -/
theorem C7_redraw_on_rising_edge (e : Env) (c : Component) (s : GlobalState)
    (v : Bool) (h : computeVisible e c = some v) :
    ((checkVisible e c s).forced = s.forced ++ [c] ↔
      v = true ∧ s.visible c = false) ∧
    (v = true ∧ s.visible c = false → (checkVisible e c s).visible c = true) ∧
    (v = false → (checkVisible e c s).visible c = false ∧
      (checkVisible e c s).forced = s.forced) ∧
    (v = true ∧ s.visible c = true → checkVisible e c s = s) := by
  have hne : s.forced ≠ s.forced ++ [c] := by
    intro heq
    simpa using congrArg List.length heq
  rw [checkVisible_eq e c s v h]
  cases v with
  | false =>
      rw [applyCheckResult_false]
      refine ⟨?_, ?_, ?_, ?_⟩
      · simp [hne]
      · rintro ⟨h1, _⟩
        cases h1
      · intro _
        exact ⟨by simp, rfl⟩
      · rintro ⟨h1, _⟩
        cases h1
  | true =>
      cases hv : s.visible c with
      | true =>
          rw [applyCheckResult_true_seen c s hv]
          refine ⟨?_, ?_, ?_, ?_⟩
          · simp [hne, hv]
          · rintro ⟨_, h2⟩
            cases h2
          · intro h1
            cases h1
          · intro _
            rfl
      | false =>
          rw [applyCheckResult_true_new c s hv]
          refine ⟨?_, ?_, ?_, ?_⟩
          · simp [hv]
          · intro _
            simp
          · intro h1
            cases h1
          · rintro ⟨_, h2⟩
            cases h2

/-- Witness for C7: a concrete hidden-to-visible step signals the redraw. -/
theorem C7_redraw_on_rising_edge_witness :
    computeVisible (mkDocEnv 200 400 300 50) cDoc = some true ∧
    ((checkVisible (mkDocEnv 200 400 300 50) cDoc initialState).forced =
        initialState.forced ++ [cDoc] ↔
      true = true ∧ initialState.visible cDoc = false) :=
  ⟨by decide,
   (C7_redraw_on_rising_edge (mkDocEnv 200 400 300 50) cDoc initialState true
     (by decide)).1⟩

/-- Claim C8 (confirmed): for fixed geometry both visibility tests are
monotonic non-decreasing in each offset component: if the test passes with
offsets `(a, b)`, it passes with `(a', b')` whenever `a' ≥ a` and `b' ≥ b`. -/
theorem C8_offset_monotone (e : Env) (ni : NodeInfo) (p : Nat) (c c' : Component)
    (ha : (normOffsets c.props.offset).1 ≤ (normOffsets c'.props.offset).1)
    (hb : (normOffsets c.props.offset).2 ≤ (normOffsets c'.props.offset).2) :
    (checkNormalVisible e c ni = true → checkNormalVisible e c' ni = true) ∧
    (checkOverflowVisible e c ni p = true → checkOverflowVisible e c' ni p = true) := by
  simp only [checkNormalVisible, checkOverflowVisible, decide_eq_true_eq]
  constructor
  · rintro ⟨h1, h2⟩
    exact ⟨by linarith, by linarith⟩
  · rintro ⟨h1, h2⟩
    exact ⟨by linarith, by linarith⟩

/-- Witness for C8: enlarging the offset from 0 to (5, 7) preserves a
concrete positive document-mode and overflow-mode visibility result. -/
theorem C8_offset_monotone_witness :
    (normOffsets cDoc.props.offset).1 ≤ (normOffsets cOff57.props.offset).1 ∧
    (normOffsets cDoc.props.offset).2 ≤ (normOffsets cOff57.props.offset).2 ∧
    ((checkNormalVisible (mkDocEnv 200 400 300 50) cDoc (niAt 300 50) = true →
      checkNormalVisible (mkDocEnv 200 400 300 50) cOff57 (niAt 300 50) = true) ∧
     (checkOverflowVisible (mkDocEnv 200 400 300 50) cDoc (niAt 300 50) 0 = true →
      checkOverflowVisible (mkDocEnv 200 400 300 50) cOff57 (niAt 300 50) 0 = true)) :=
  ⟨by decide, by decide,
   C8_offset_monotone (mkDocEnv 200 400 300 50) (niAt 300 50) 0 cDoc cOff57
     (by decide) (by decide)⟩

/-- Claim C3 (confirmed): an element with `once = true` transitions from
hidden to visible at most once — after the check pass in which the
transition occurs its flag stays true (so no further hidden-to-visible
transition is possible) and it is absent from the registry after that pass
and after every sequence of subsequent passes. The count hypothesis is the
registry invariant that an instance is registered at most once. -/
theorem C3_once_semantics (e : Env) (es : List Env) (c : Component)
    (s : GlobalState)
    (honce : c.props.once = true)
    (hcount : s.listeners.count c ≤ 1)
    (hbefore : s.visible c = false)
    (hafter : (lazyLoadHandler e s).visible c = true) :
    c ∉ (lazyLoadHandler e s).listeners ∧
    c ∉ (runPasses es (lazyLoadHandler e s)).listeners ∧
    (runPasses es (lazyLoadHandler e s)).visible c = true := by
  have hbase : s.visible c = true → c ∈ s.pending := by
    intro hv
    rw [hbefore] at hv
    cases hv
  have hvis : (runChecks e s.listeners s).visible c = true :=
    (congrFun (purgePending_visible (runChecks e s.listeners s)) c).symm.trans hafter
  have hpend : c ∈ (runChecks e s.listeners s).pending :=
    runChecks_pendingInv e s.listeners c s honce hbase hvis
  have hcount2 : (runChecks e s.listeners s).listeners.count c ≤ 1 := by
    rw [(runChecks_frame e s.listeners s).1]
    exact hcount
  have habs : c ∉ (lazyLoadHandler e s).listeners :=
    purgePending_removes (runChecks e s.listeners s) c hpend hcount2
  have hrest := runPasses_not_mem es (lazyLoadHandler e s) c habs
  exact ⟨habs, hrest.1, hrest.2.trans hafter⟩

/-- Witness for C3: a concrete `once` element that becomes visible during a
pass is purged at the end of that pass and stays unregistered over a later
pass. -/
theorem C3_once_semantics_witness :
    cOnce.props.once = true ∧
    sOnceMounted.listeners.count cOnce ≤ 1 ∧
    sOnceMounted.visible cOnce = false ∧
    (lazyLoadHandler (mkDocEnv 200 400 300 50) sOnceMounted).visible cOnce = true ∧
    (cOnce ∉ (lazyLoadHandler (mkDocEnv 200 400 300 50) sOnceMounted).listeners ∧
     cOnce ∉ (runPasses [mkDocEnv 0 400 500 50]
        (lazyLoadHandler (mkDocEnv 200 400 300 50) sOnceMounted)).listeners ∧
     (runPasses [mkDocEnv 0 400 500 50]
        (lazyLoadHandler (mkDocEnv 200 400 300 50) sOnceMounted)).visible cOnce = true) :=
  ⟨by decide, by decide, by decide, by decide,
   C3_once_semantics (mkDocEnv 200 400 300 50) [mkDocEnv 0 400 500 50] cOnce
     sOnceMounted (by decide) (by decide) (by decide) (by decide)⟩

/-- Counterexample to claim C4: after mounting the `once` element `cOnce`
(which attaches the window scroll listener) a pass under a geometry that
reveals it purges the registry to empty, yet the window scroll listener is
still attached at the end of that pass. -/
theorem C4_counterexample :
    sC4.windowScrollBound = true ∧
    sC4.listeners = [cOnce] ∧
    (lazyLoadHandler (mkDocEnv 200 400 300 50) sC4).listeners = [] ∧
    (lazyLoadHandler (mkDocEnv 200 400 300 50) sC4).windowScrollBound = true := by
  decide

/-- Claim C4 (amended): when the post-pass purge empties the registry the
global window listeners are NOT detached — a check pass always leaves the
window bindings exactly as they were; the listeners are detached only by
`componentWillUnmount` when the registry it leaves behind is empty. -/
theorem C4_pass_never_detaches (e : Env) (s : GlobalState) :
    ((lazyLoadHandler e s).windowScrollBound = s.windowScrollBound ∧
     (lazyLoadHandler e s).windowResizeBound = s.windowResizeBound) ∧
    (∀ c : Component, (componentWillUnmount e c s).listeners = [] →
      (componentWillUnmount e c s).windowScrollBound = false ∧
      (componentWillUnmount e c s).windowResizeBound = false) := by
  refine ⟨⟨?_, ?_⟩, ?_⟩
  · exact (runChecks_frame e s.listeners s).2.2.1
  · exact (runChecks_frame e s.listeners s).2.2.2.1
  · intro c hc
    exact componentWillUnmount_unbinds_when_empty e c s hc

/-- Witness for C4 (amended): the concrete pass of the counterexample
preserves the window binding, and unmounting the last element detaches it. -/
theorem C4_pass_never_detaches_witness :
    ((lazyLoadHandler (mkDocEnv 200 400 300 50) sC4).windowScrollBound =
        sC4.windowScrollBound ∧
     (lazyLoadHandler (mkDocEnv 200 400 300 50) sC4).windowResizeBound =
        sC4.windowResizeBound) ∧
    ((componentWillUnmount (mkDocEnv 200 400 300 50) cOnce sC4).windowScrollBound =
        false ∧
     (componentWillUnmount (mkDocEnv 200 400 300 50) cOnce sC4).windowResizeBound =
        false) :=
  ⟨(C4_pass_never_detaches (mkDocEnv 200 400 300 50) sC4).1,
   (C4_pass_never_detaches (mkDocEnv 200 400 300 50) sC4).2 cOnce (by decide)⟩

/-- Counterexample to claim C5: `cOvA` and `cOvB` share overflow container 7
with its listener bound; unmounting `cOvA` removes the container's binding
even though `cOvB` is still registered and uses the container. -/
theorem C5_counterexample :
    sC5.containerBound = [7] ∧
    cOvB ∈ sC5.listeners ∧
    scrollParentOf envOv cOvB = some 7 ∧
    (componentWillUnmount envOv cOvA sC5).containerBound = [] ∧
    cOvB ∈ (componentWillUnmount envOv cOvA sC5).listeners := by
  decide

/-- Claim C5 (amended): unmounting an overflow element always removes its
resolved container's listen-marker and scroll listener — the binding is not
kept for remaining elements sharing the container; removal is unconditional,
not only for the last user. -/
theorem C5_unmount_always_unbinds_container (e : Env) (c : Component)
    (s : GlobalState) (p : Nat)
    (hov : c.props.overflow = true) (hp : scrollParentOf e c = some p) :
    (componentWillUnmount e c s).containerBound = s.containerBound.erase p := by
  simp only [componentWillUnmount]
  have hcb : ∀ s2 : GlobalState,
      (if s2.listeners.length = 0 then
        { s2 with windowScrollBound := false, windowResizeBound := false }
      else s2).containerBound = s2.containerBound := by
    intro s2
    split <;> rfl
  rw [hcb]
  simp [unmountRemove, hov, hp]

/-- Witness for C5 (amended): unmounting `cOvA` erases container 7's binding
in the concrete two-element state. -/
theorem C5_unmount_always_unbinds_container_witness :
    cOvA.props.overflow = true ∧
    scrollParentOf envOv cOvA = some 7 ∧
    (componentWillUnmount envOv cOvA sC5).containerBound =
      sC5.containerBound.erase 7 :=
  ⟨by decide, by decide,
   C5_unmount_always_unbinds_container envOv cOvA sC5 7 (by decide) (by decide)⟩

/-- Counterexample to claim C6: `cDoc` has `overflow = false`, yet in an
environment where its node's resolved scroll parent is container 7 the
check uses the overflow-container algorithm (result true), not the document
viewport algorithm (which yields false on this geometry). -/
theorem C6_counterexample :
    cDoc.props.overflow = false ∧
    computeVisible envC6 cDoc = some true ∧
    checkNormalVisible envC6 cDoc niC6 = false ∧
    checkOverflowVisible envC6 cDoc niC6 7 = true := by
  decide

/-- Claim C6 (amended): the visibility algorithm is selected by the resolved
scroll parent alone — the document algorithm exactly when the parent is the
document, the overflow algorithm exactly when it is a real container —
independently of the element's `overflow` prop, which only controls event
binding: two components associated with the same node and offset always get
the same visibility result whatever their `overflow` props. -/
theorem C6_mode_follows_scroll_parent (e : Env) (c c' : Component)
    (ni : NodeInfo)
    (h : e.node c = some ni) (h' : e.node c' = some ni)
    (hoff : c.props.offset = c'.props.offset) :
    (ni.scrollParent = none →
      computeVisible e c = some (checkNormalVisible e c ni)) ∧
    (∀ p : Nat, ni.scrollParent = some p →
      computeVisible e c = some (checkOverflowVisible e c ni p)) ∧
    computeVisible e c = computeVisible e c' := by
  rw [computeVisible_eq e c ni h, computeVisible_eq e c' ni h']
  refine ⟨?_, ?_, ?_⟩
  · intro hsp
    rw [hsp]
  · intro p hsp
    rw [hsp]
  · cases hsp : ni.scrollParent with
    | none =>
        simp only [hsp]
        unfold checkNormalVisible
        rw [hoff]
    | some p =>
        simp only [hsp]
        unfold checkOverflowVisible
        rw [hoff]

/-- Witness for C6 (amended): for the concrete node in container 7, the
check result is the overflow algorithm's result even though the component's
`overflow` prop is false. -/
theorem C6_mode_follows_scroll_parent_witness :
    envC6.node cDoc = some niC6 ∧
    niC6.scrollParent = some 7 ∧
    computeVisible envC6 cDoc = some (checkOverflowVisible envC6 cDoc niC6 7) :=
  ⟨rfl, rfl,
   (C6_mode_follows_scroll_parent envC6 cDoc cDoc niC6 rfl rfl rfl).2.1 7 rfl⟩

/-- Claim C10 (confirmed): mounting a document-mode (non-overflow) element
while the registry is non-empty attaches no window scroll/resize listener;
the emptiness test is on the shared registry, which counts overflow-mode
elements too, so after an overflow element is the only registered one a
document-mode mount binds no window listener even though none exists. -/
theorem C10_mount_nonempty_binds_nothing (e : Env) (c : Component)
    (s : GlobalState)
    (hov : c.props.overflow = false) (hne : s.listeners ≠ []) :
    (componentDidMount e c s).windowScrollBound = s.windowScrollBound ∧
    (componentDidMount e c s).windowResizeBound = s.windowResizeBound := by
  have hne1 : (mountInit c s).listeners ≠ [] := by
    rw [(mountInit_frame c s).1]
    exact hne
  have hmb : mountBind e c (mountInit c s) = mountInit c s :=
    mountBind_nonempty e c (mountInit c s) hov hne1
  unfold componentDidMount
  rw [hmb]
  constructor
  · exact ((checkVisible_frame e c _).2.2.1).trans (mountInit_frame c s).2.2.1
  · exact ((checkVisible_frame e c _).2.2.2.1).trans (mountInit_frame c s).2.2.2.1

/-- Witness for C10: with the overflow element `cOvA` as the only registered
element (and no window listener attached), mounting the document-mode `cDoc`
leaves the window bindings unchanged — in particular still unbound. -/
theorem C10_mount_nonempty_binds_nothing_witness :
    cDoc.props.overflow = false ∧
    sOvOnly.listeners ≠ [] ∧
    sOvOnly.windowScrollBound = false ∧
    ((componentDidMount envOv cDoc sOvOnly).windowScrollBound =
        sOvOnly.windowScrollBound ∧
     (componentDidMount envOv cDoc sOvOnly).windowResizeBound =
        sOvOnly.windowResizeBound) :=
  ⟨by decide, by decide, by decide,
   C10_mount_nonempty_binds_nothing envOv cDoc sOvOnly (by decide) (by decide)⟩

end ReactLazyload
